import Mathlib

/-!
Verification development for the fal-teller multi-tenant tabular data
transfer gateway.  The definitions below are a shallow embedding of the
Python sources under `src/fal_teller/`:

* `src/fal_teller/server/_server.py` — authentication middleware, ticket
  store, and the Flight gateway (`TellerServer`);
* `src/fal_teller/server/_providers.py` and
  `src/fal_teller/server/providers/{file,snowflake}.py` — storage
  providers.

Machine state (the ticket dictionary, the backing filesystem) is passed
explicitly; Python exceptions become `Except` values; `datetime` values
become integers counted in minutes.
-/

namespace FalTeller

/-- Decidable equality for `Except` results, used to evaluate the
embedded operations on concrete inputs. -/
instance {ε α : Type} [DecidableEq ε] [DecidableEq α] : DecidableEq (Except ε α) :=
  fun a b =>
    match a, b with
    | Except.error x, Except.error y =>
      if h : x = y then Decidable.isTrue (by rw [h])
      else Decidable.isFalse (by intro hh; cases hh; exact h rfl)
    | Except.ok x, Except.ok y =>
      if h : x = y then Decidable.isTrue (by rw [h])
      else Decidable.isFalse (by intro hh; cases hh; exact h rfl)
    | Except.error _, Except.ok _ => Decidable.isFalse (by intro hh; cases hh)
    | Except.ok _, Except.error _ => Decidable.isFalse (by intro hh; cases hh)

/-- A column schema: ordered (field name, field type) pairs, standing in
for a `pyarrow.Schema`. -/
abbrev Schema := List (String × String)

/-- One record batch of a stream.  The payload is abstracted to an
identifier plus a row count; claims only need batch identity and order. -/
structure Batch where
  id : Nat
  numRows : Nat
  deriving DecidableEq, Repr

/-- Placeholder query-filter type (`Query` in `_providers.py`); the
current code requires it to be absent everywhere. -/
structure Query where
  deriving DecidableEq, Repr

/-- Errors raised by the server code.  Python exceptions are mapped to
structured constructors: `flight.FlightUnauthenticatedError` sites each
get their own constructor, `assert` failures become `assertionFailed`
(with the criteria assert of `list_flights` kept separate as
`unsupportedCriteria`, its name in the spec's taxonomy), and the dynamic
errors `TypeError` / `KeyError` / `NotImplementedError` /
`FileNotFoundError` / `json.JSONDecodeError` are `typeError`, `keyError`,
`notImplemented`, `notFound` and `jsonDecode`. -/
inductive Err where
  | missingHeader (name : String)
  | invalidCredentialsType
  | headerAssertion
  | unregisteredUser
  | profileNotGranted (profile : String) (token : String)
  | keyError (key : String)
  | notImplemented
  | typeError (msg : String)
  | assertionFailed (msg : String)
  | unsupportedCriteria
  | jsonDecode (msg : String)
  | unknownTicket
  | ticketExpired (validUntil : Int)
  | notFound (path : String)
  deriving DecidableEq, Repr

/-! ## Ticket store (`_server.py`, `Ticket` / `TicketStore`) -/

/-- `Ticket.MAX_VALIDITY = timedelta(minutes=120)`; time is modelled in
minutes. -/
def MAX_VALIDITY : Int := 120

/-- `Ticket` dataclass: a canonical path, the provider instance bound at
authentication time (abstracted to an opaque identifier), the random
token, and the issue time (`generated_time = datetime.now()`). -/
structure Ticket where
  path : String
  provider : Nat
  token : String
  generated_time : Int
  deriving DecidableEq, Repr

/-- `Ticket.is_valid`: `self.generated_time + self.MAX_VALIDITY >
datetime.now()`, with the current time passed explicitly. -/
def Ticket.is_valid (t : Ticket) (now : Int) : Bool :=
  decide (t.generated_time + MAX_VALIDITY > now)

/-- The ticket dictionary `TicketStore.tickets : Dict[str, Ticket]`,
modelled as a partial map. -/
def TicketStore : Type := String → Option Ticket

/-- `TicketStore.add_ticket`: mint a `Ticket` for the path/provider pair
and store it under its token.  The fresh random token
(`secrets.token_urlsafe()`) and the current time are passed in. -/
def add_ticket (store : TicketStore) (path : String) (provider : Nat)
    (token : String) (now : Int) : String × TicketStore :=
  let ticket : Ticket := ⟨path, provider, token, now⟩
  (ticket.token, fun k => if k = ticket.token then some ticket else store k)

/-- `TicketStore.use_ticket`: `self.tickets.pop(token, None)` removes the
entry up front; an absent entry raises the unknown-ticket error, an
expired (already removed) entry raises the expired error naming
`generated_time + MAX_VALIDITY`, and otherwise the ticket is returned. -/
def use_ticket (store : TicketStore) (token : String) (now : Int) :
    Except Err Ticket × TicketStore :=
  match store token with
  | none => (Except.error Err.unknownTicket, store)
  | some ticket =>
    let store1 : TicketStore := fun k => if k = token then none else store k
    if ticket.is_valid now then
      (Except.ok ticket, store1)
    else
      (Except.error (Err.ticketExpired (ticket.generated_time + MAX_VALIDITY)), store1)

/-! ## Authentication middleware (`_server.py`,
`AuthenticationMiddlewareFactory`) -/

/-- Inbound call metadata: header name to list of values, as handed to
`start_call`. -/
abbrev Headers := List (String × List String)

/-- A profile's provider configuration, one entry of `db["profiles"]`:
`{type: ..., params: {...}}`. -/
structure ProfileCfg where
  type_ : String
  params : List (String × String)
  deriving DecidableEq, Repr

/-- The durable token registry read by `start_call` via `shelve`:
`db["tokens"] : token -> {profiles: [...]}` (the profile list kept
directly) and `db["profiles"] : name -> configuration`. -/
structure TokenDB where
  tokens : String → Option (List String)
  profiles : String → Option ProfileCfg

/-- A constructed provider instance.  `get_provider` in `_providers.py`
only knows the "file" kind, constructed from the profile's params. -/
inductive Provider where
  | file (params : List (String × String))
  deriving DecidableEq, Repr

/-- `get_provider(provider_type, **params)` from `_providers.py`:
constructs a `FileProvider` for kind "file" and raises
`NotImplementedError` for anything else. -/
def get_provider (cfg : ProfileCfg) : Except Err Provider :=
  if cfg.type_ = "file" then Except.ok (Provider.file cfg.params)
  else Except.error Err.notImplemented

/-- The authenticated-call context produced by a successful
`start_call`: the profile name plus the provider constructed for it. -/
structure AuthenticationMiddleware where
  profile_name : String
  provider : Provider
  deriving DecidableEq, Repr

/-- `str.casefold()` as used for header-name comparison, modelled as
ASCII lowercasing. -/
def caseFold (s : String) : String := ⟨s.data.map Char.toLower⟩

/-- `AuthenticationMiddlewareFactory.parse_header`: scan the header map
for a case-insensitive key match; assert the matched value list is a
singleton and return its element; raise the missing-header error when no
key matches. -/
def parse_header (headers : Headers) (header_name : String) : Except Err String :=
  match headers.find? (fun h => caseFold h.1 == caseFold header_name) with
  | some (_, [v]) => Except.ok v
  | some (_, _) => Except.error Err.headerAssertion
  | none => Except.error (Err.missingHeader header_name)

/-- `str.partition(sep)` on the first occurrence of `sep`: everything
before it.  Returns `none` when `sep` does not occur. -/
def partitionAux (sep : Char) : List Char → Option (List Char × List Char)
  | [] => none
  | c :: rest =>
    if c = sep then some ([], rest)
    else (partitionAux sep rest).map (fun p => (c :: p.1, p.2))

/-- Python's `str.partition`: split at the first occurrence of the
separator, returning `(before, sep, after)`; when the separator is
absent the result is `(s, "", "")`. -/
def pyPartition (s : String) (sep : Char) : String × String × String :=
  match partitionAux sep s.toList with
  | none => (s, "", "")
  | some (pre, post) => (⟨pre⟩, String.singleton sep, ⟨post⟩)

/-- `AuthenticationMiddlewareFactory.start_call`: extract the
`Authorization` and `Target-Profile` headers (in that order), then parse
the auth value as `Bearer <token>`, look the token up in the registry,
check the target profile is granted, fetch the profile configuration and
construct the provider. -/
def start_call (db : TokenDB) (headers : Headers) :
    Except Err AuthenticationMiddleware :=
  match parse_header headers "Authorization" with
  | Except.error e => Except.error e
  | Except.ok auth_header =>
    match parse_header headers "Target-Profile" with
    | Except.error e => Except.error e
    | Except.ok target_profile_name =>
      let parsed := pyPartition auth_header ' '
      let authentication_type := parsed.1
      let authentication_token := parsed.2.2
      if authentication_type ≠ "Bearer" ∨ authentication_token = "" then
        Except.error Err.invalidCredentialsType
      else
        match db.tokens authentication_token with
        | none => Except.error Err.unregisteredUser
        | some trusted_profiles =>
          if target_profile_name ∈ trusted_profiles then
            match db.profiles target_profile_name with
            | none => Except.error (Err.keyError target_profile_name)
            | some target_profile =>
              (get_provider target_profile).map
                (AuthenticationMiddleware.mk target_profile_name)
          else
            Except.error (Err.profileNotGranted target_profile_name authentication_token)

/-! ## File-backed provider (`_providers.py` / `providers/file.py`,
`FileProvider`) -/

/-- Table metadata (`TableInfo` dataclass): schema, backend path, and the
record/byte counts (−1 when unknown). -/
structure TableInfo where
  schema : Schema
  path : String
  total_records : Int
  total_bytes : Int
  deriving DecidableEq, Repr

/-- The contents of one written parquet file: the schema, the stored
record batches, and the metadata byte size. -/
structure ParquetFileT where
  schema : Schema
  batches : List Batch
  serializedSize : Nat
  deriving DecidableEq, Repr

/-- The backing filesystem reachable through the provider's fsspec
connection: an association of absolute paths to parquet files. -/
abbrev FS := List (String × ParquetFileT)

/-- Look a path up in the filesystem. -/
def fsRead : FS → String → Option ParquetFileT
  | [], _ => none
  | (p, t) :: rest, q => if p = q then some t else fsRead rest q

/-- Store a parquet file at a path, replacing any previous file there. -/
def fsWrite : FS → String → ParquetFileT → FS
  | [], p, t => [(p, t)]
  | (q, u) :: rest, p, t =>
    if q = p then (p, t) :: rest else (q, u) :: fsWrite rest p t

/-- The `FileProvider` dataclass: the fsspec filesystem kind, the
per-profile root directory, and the connection's path separator
(`self.connection.sep`, "/" for local filesystems). -/
structure FileProvider where
  file_system : String
  root_path : String
  sep : String
  deriving DecidableEq, Repr

/-- Python's `sep.join(parts)`: concatenate the parts with `sep` between
consecutive elements. -/
def sepJoin (sep : String) : List String → String
  | [] => ""
  | [x] => x
  | x :: y :: rest => x ++ sep ++ sepJoin sep (y :: rest)

/-- `FileProvider.pack_path(*parts)`:
`self.connection.sep.join((self.root_path, *parts))`. -/
def FileProvider.pack_path (p : FileProvider) (parts : List String) : String :=
  sepJoin p.sep (p.root_path :: parts)

/-- `FileProvider.unpack_path`: the body is `raise NotImplementedError`
before the (unreachable) `return path`, so every call fails. -/
def FileProvider.unpack_path (p : FileProvider) (path : String) :
    Except Err String :=
  Except.error Err.notImplemented

/-- `FileProvider.read_from(path, query)`: assert the query filter is
absent, then open the parquet file at `path` (raising `FileNotFoundError`
when it does not exist) and stream its schema and stored batches. -/
def FileProvider.read_from (p : FileProvider) (fs : FS) (path : String)
    (query : Option Query) : Except Err (Schema × List Batch) :=
  match query with
  | some _ => Except.error (Err.assertionFailed "")
  | none =>
    match fsRead fs path with
    | none => Except.error (Err.notFound path)
    | some pq => Except.ok (pq.schema, pq.batches)

/-- Metadata byte size recorded by the parquet writer; abstracted as a
function of the written batches. -/
def parquetSize (batches : List Batch) : Nat :=
  (batches.map Batch.numRows).sum

/-- `FileProvider.write_to(path, stream)`: open a parquet writer at
`path` with the stream's schema and write every batch as it arrives. -/
def FileProvider.write_to (p : FileProvider) (fs : FS) (path : String)
    (stream : Schema × List Batch) : FS :=
  fsWrite fs path ⟨stream.1, stream.2, parquetSize stream.2⟩

/-- `FileProvider.list(path)`: recursively enumerate the files under the
directory `path` and open each one to extract schema and row/byte
counts.  NOTE: this method takes a `path` argument even though the base
class declares `list(self)` — see `file_list_zero_arg`. -/
def FileProvider.list (p : FileProvider) (fs : FS) (path : String) :
    List TableInfo :=
  (fs.filter (fun e => List.isPrefixOf (path ++ p.sep).data e.1.data)).map (fun e =>
    ⟨e.2.schema, e.1, ((e.2.batches.map Batch.numRows).sum : Nat),
      (e.2.serializedSize : Nat)⟩)

/-! ## JSON (`json.loads`, used by `parse_criteria`) -/

/-- A decoded JSON document.  `Json.null` doubles as Python's `None`,
which is both what `json.loads("null")` returns and what
`parse_criteria` returns for empty criteria. -/
inductive Json where
  | null
  | bool (b : Bool)
  | num (n : Int)
  | str (s : String)
  | arr (elems : List Json)
  | obj (fields : List (String × Json))
  deriving Repr

/-- Whether a decoded JSON document is the Python `None` value. -/
def Json.isNull : Json → Bool
  | Json.null => true
  | _ => false

/-- Skip JSON whitespace. -/
def skipWs : List Char → List Char
  | c :: rest =>
    if c = ' ' ∨ c = '\t' ∨ c = '\n' ∨ c = '\r' then skipWs rest else c :: rest
  | [] => []

/-- Parse the body of a JSON string literal up to its closing quote.
String escapes are outside this model and rejected. -/
def parseStringBody : List Char → Except String (List Char × List Char)
  | [] => Except.error "Unterminated string"
  | c :: rest =>
    if c = '"' then Except.ok ([], rest)
    else if c = '\\' then Except.error "string escapes not modelled"
    else (parseStringBody rest).map (fun p => (c :: p.1, p.2))

/-- Numeric value of a digit run. -/
def digitsVal (ds : List Char) : Int :=
  ds.foldl (fun acc c => acc * 10 + (Int.ofNat (c.toNat - 48))) 0

/-- Parse a JSON integer literal (floats are outside this model and
rejected). -/
def parseNumber (cs : List Char) : Except String (Json × List Char) :=
  let signed := match cs with
    | c :: rest => if c = '-' then (true, rest) else (false, cs)
    | [] => (false, cs)
  let ds := signed.2.takeWhile Char.isDigit
  let rest := signed.2.dropWhile Char.isDigit
  if ds.isEmpty then Except.error "Expecting value"
  else
    match rest with
    | c :: _ =>
      if c = '.' ∨ c = 'e' ∨ c = 'E' then
        Except.error "float literals not modelled"
      else
        Except.ok (Json.num (if signed.1 then -(digitsVal ds) else digitsVal ds), rest)
    | [] => Except.ok (Json.num (if signed.1 then -(digitsVal ds) else digitsVal ds), rest)

mutual

/-- Recursive-descent parser for one JSON value (a model of the grammar
accepted by Python's `json.loads`, restricted to documents without
floats or string escapes). -/
def parseVal : Nat → List Char → Except String (Json × List Char)
  | 0, _ => Except.error "too deeply nested"
  | fuel + 1, cs =>
    match skipWs cs with
    | [] => Except.error "Expecting value"
    | 'n' :: 'u' :: 'l' :: 'l' :: rest => Except.ok (Json.null, rest)
    | 't' :: 'r' :: 'u' :: 'e' :: rest => Except.ok (Json.bool true, rest)
    | 'f' :: 'a' :: 'l' :: 's' :: 'e' :: rest => Except.ok (Json.bool false, rest)
    | '"' :: rest =>
      (parseStringBody rest).map (fun p => (Json.str ⟨p.1⟩, p.2))
    | '[' :: rest =>
      (parseArrayItems fuel rest).map (fun p => (Json.arr p.1, p.2))
    | '{' :: rest =>
      (parseObjFields fuel rest).map (fun p => (Json.obj p.1, p.2))
    | c :: rest =>
      if c.isDigit ∨ c = '-' then parseNumber (c :: rest)
      else Except.error "Expecting value"

/-- Parse the items of a JSON array after the opening bracket. -/
def parseArrayItems : Nat → List Char → Except String (List Json × List Char)
  | 0, _ => Except.error "too deeply nested"
  | fuel + 1, cs =>
    match skipWs cs with
    | ']' :: rest => Except.ok ([], rest)
    | cs1 =>
      match parseVal fuel cs1 with
      | Except.error e => Except.error e
      | Except.ok (v, rest) =>
        match skipWs rest with
        | ',' :: rest1 =>
          (parseArrayItems fuel rest1).map (fun p => (v :: p.1, p.2))
        | ']' :: rest1 => Except.ok ([v], rest1)
        | _ => Except.error "Expecting , delimiter"

/-- Parse the fields of a JSON object after the opening brace. -/
def parseObjFields : Nat → List Char → Except String (List (String × Json) × List Char)
  | 0, _ => Except.error "too deeply nested"
  | fuel + 1, cs =>
    match skipWs cs with
    | '}' :: rest => Except.ok ([], rest)
    | '"' :: rest =>
      match parseStringBody rest with
      | Except.error e => Except.error e
      | Except.ok (key, rest1) =>
        match skipWs rest1 with
        | ':' :: rest2 =>
          match parseVal fuel rest2 with
          | Except.error e => Except.error e
          | Except.ok (v, rest3) =>
            match skipWs rest3 with
            | ',' :: rest4 =>
              (parseObjFields fuel rest4).map (fun p => ((⟨key⟩, v) :: p.1, p.2))
            | '}' :: rest4 => Except.ok ([(⟨key⟩, v)], rest4)
            | _ => Except.error "Expecting , delimiter"
        | _ => Except.error "Expecting : delimiter"
    | _ => Except.error "Expecting property name"

end

/-- `json.loads`: parse a complete JSON document, rejecting trailing
data. -/
def json_loads (s : String) : Except String Json :=
  match parseVal (s.length + 1) s.toList with
  | Except.error e => Except.error e
  | Except.ok (v, rest) =>
    if (skipWs rest).isEmpty then Except.ok v else Except.error "Extra data"

/-! ## Gateway (`_server.py`, `TellerServer`) -/

/-- `parse_criteria(raw_criteria)`: empty criteria give Python `None`
(`Json.null` here); anything else is decoded with `json.loads`, whose
result for the document "null" is likewise `None`. -/
def parse_criteria (raw_criteria : String) : Except String Json :=
  if raw_criteria = "" then Except.ok Json.null
  else json_loads raw_criteria

/-- `TellerServer._unpack_descriptor`: decode the descriptor's path
components and normalize them through the provider's `pack_path`. -/
def unpack_descriptor (p : FileProvider) (parts : List String) : String :=
  p.pack_path parts

/-- The gateway's `provider.list()` call in `list_flights`, bound to a
`FileProvider`: `FileProvider.list` is declared as `list(self, path)`,
so invoking it with no argument raises
`TypeError: list() missing 1 required positional argument` before any
table is produced. -/
def file_list_zero_arg : Except Err (List TableInfo) :=
  Except.error (Err.typeError "list() missing 1 required positional argument")

/-- `TellerServer.list_flights` for a file-bound profile (the only
provider kind `get_provider` can construct): check
`parse_criteria(criteria) is None` (a JSON decode failure propagates, a
non-`None` result fails the assert, named `unsupportedCriteria` after
the spec taxonomy), then iterate `provider.list()`. -/
def list_flights (criteria : String) : Except Err (List TableInfo) :=
  match parse_criteria criteria with
  | Except.error msg => Except.error (Err.jsonDecode msg)
  | Except.ok Json.null => file_list_zero_arg
  | Except.ok _ => Except.error Err.unsupportedCriteria

/-- `TellerServer.do_put`: normalize the caller's descriptor components
through the provider and hand the incoming stream to
`provider.write_to`. -/
def do_put (p : FileProvider) (fs : FS) (descriptorParts : List String)
    (stream : Schema × List Batch) : FS :=
  p.write_to fs (unpack_descriptor p descriptorParts) stream

/-! ## Warehouse provider (`providers/snowflake.py`,
`SnowflakeProvider`) -/

/-- One element yielded by `cursor.fetch_arrow_batches()`: an arrow
table carrying a schema, convertible to record batches
(`Table.to_batches`, zero copy, all sharing the table's schema). -/
structure SfTable where
  schema : Schema
  batches : List Batch
  deriving DecidableEq, Repr

/-- `pyarrow.Table.to_batches`. -/
def SfTable.to_batches (t : SfTable) : List Batch := t.batches

/-- Python's `next(it, None)` on a list-modelled iterator: the head and
the remaining items. -/
def pyNext : List α → Option (α × List α)
  | [] => none
  | x :: xs => some (x, xs)

/-- `itertools.chain([x], xs)`. -/
def chainCons (x : α) (xs : List α) : List α := x :: xs

/-- Python's `str.upper()`, modelled as ASCII uppercasing. -/
def strUpper (s : String) : String := ⟨s.data.map Char.toUpper⟩

/-- `SnowflakeProvider.pack_path(*path)`: assert exactly one component
and upper-case it. -/
def snowflake_pack_path (path : List String) : Except Err String :=
  match path with
  | [p] => Except.ok (strUpper p)
  | _ => Except.error (Err.assertionFailed "")

/-- `SnowflakeProvider.unpack_path(path)`: the identity. -/
def snowflake_unpack_path (path : String) : String := path

/-- `SnowflakeProvider.read_from(path, query)`: assert the query filter
is absent; `results` models what `cursor.fetch_arrow_batches()` yields
for `SELECT * FROM path`.  The first table is peeked to learn the
schema (asserting the result is non-empty), re-chained in front of the
remainder, and the chain is flattened into record batches. -/
def snowflake_read_from (path : String) (query : Option Query)
    (results : List SfTable) : Except Err (Schema × List Batch) :=
  match query with
  | some _ => Except.error (Err.assertionFailed "")
  | none =>
    match pyNext results with
    | none => Except.error (Err.assertionFailed "there should be at least one batch")
    | some (fist_table, table_batches) =>
      Except.ok (fist_table.schema,
        (chainCons fist_table table_batches).flatMap SfTable.to_batches)

/-- `SnowflakeProvider._SQL_ALCHEMY_DIALECT`. -/
def SQL_ALCHEMY_DIALECT : String := "snowflake://"

/-- Python's `enumerate`. -/
def pyEnumerate (xs : List α) : List (Nat × α) := xs.enum

/-- Python's `not` applied to an `int`: true exactly on zero. -/
def pyNot (n : Nat) : Bool := n == 0

/-- The externally visible effects of `SnowflakeProvider.write_to`: SQL
statements executed on a cursor and `write_pandas` bulk-load calls with
their `auto_create_table` / `overwrite` flags. -/
inductive SfEffect where
  | execStmt (stmt : String)
  | bulkLoad (batch : Batch) (path : String)
      (autoCreateTable : Bool) (overwrite : Bool)
  deriving DecidableEq, Repr

/-- Whether an effect is a cursor `execute` of a SQL statement. -/
def SfEffect.isExec : SfEffect → Bool
  | SfEffect.execStmt _ => true
  | SfEffect.bulkLoad _ _ _ _ => false

/-- `SnowflakeProvider.write_to(path, stream)` as its effect trace:
execute `generate_ddl(path, dialect=self._SQL_ALCHEMY_DIALECT,
schema=stream.schema)` once, then bulk-load each batch, with
`auto_create_table = overwrite = not should_append` where
`should_append` is the batch's `enumerate` index.  `generate_ddl`
(`_ddl.py`) computes its SQL string entirely through the sqlalchemy and
pandas collaborators (`CreateTable(...).compile(mock_engine)`), so its
output is kept abstract: the function is passed in as a parameter and
the write protocol is established for every value it may return. -/
def snowflake_write_to (generate_ddl : String → String → Schema → String)
    (path : String) (schema : Schema) (stream : List Batch) : List SfEffect :=
  let create_stmt := generate_ddl path SQL_ALCHEMY_DIALECT schema
  SfEffect.execStmt create_stmt ::
    (pyEnumerate stream).map (fun e =>
      SfEffect.bulkLoad e.2 path (pyNot e.1) (pyNot e.1))

/-! ## Concrete witness data -/

/-- A ticket store holding a single ticket minted at time 0 under token
"tok". -/
def demoStore : TicketStore :=
  fun k => if k = "tok" then some ⟨"p", 0, "tok", 0⟩ else none

/-- An empty token registry. -/
def cexDb : TokenDB := ⟨fun _ => none, fun _ => none⟩

/-- A header map with a malformed Authorization value and no
Target-Profile header. -/
def cexHeaders : Headers := [("Authorization", ["Basic xyz"])]

/-- A header map with a malformed Authorization value and a
Target-Profile header. -/
def okHeaders : Headers :=
  [("Authorization", ["Basic xyz"]), ("Target-Profile", ["p1"])]

/-- A file provider rooted at profile_1's directory. -/
def wProv1 : FileProvider := ⟨"file", "/tmp/data/profile_1", "/"⟩

/-- A file provider rooted at profile_2's directory. -/
def wProv2 : FileProvider := ⟨"file", "/tmp/data/profile_2", "/"⟩

/-- A file provider rooted at "data". -/
def cexFileProv : FileProvider := ⟨"file", "data", "/"⟩

/-- A one-batch parquet file with a single string column. -/
def cexPq : ParquetFileT := ⟨[("fruits", "string")], [⟨0, 4⟩], 4⟩

/-- A filesystem holding one table under the "data" root. -/
def cexFs : FS := [("data/t", cexPq)]

/-- A sample value for the DDL-generation collaborator, used to
instantiate the write-protocol theorem on concrete inputs. -/
def wDdl (path : String) (dialect : String) (schema : Schema) : String :=
  dialect ++ path ++ String.intercalate "," (schema.map (fun f => f.1))

/-! ## Theorems -/

/-- C1: whenever the token is present in the ticket store, `use_ticket`
removes its entry regardless of outcome — succeeding with the stored
ticket while it is valid and failing with the expired error otherwise —
and every subsequent `use_ticket` on the same token fails with the
unknown-ticket error, so redemption succeeds at most once per token. -/
theorem ticket_single_use (store : TicketStore) (token : String) (now : Int)
    (ticket : Ticket) (hpresent : store token = some ticket) :
    ((use_ticket store token now).2 token = none)
    ∧ (ticket.is_valid now = true →
        (use_ticket store token now).1 = Except.ok ticket)
    ∧ (ticket.is_valid now = false →
        (use_ticket store token now).1
          = Except.error (Err.ticketExpired (ticket.generated_time + MAX_VALIDITY)))
    ∧ (∀ now2, (use_ticket (use_ticket store token now).2 token now2).1
          = Except.error Err.unknownTicket) := by
  by_cases hv : ticket.is_valid now
  · simp [use_ticket, hpresent, hv]
  · simp [use_ticket, hpresent, hv]

/-- Witness for C1: the demo store's ticket redeems successfully at time
0, and a second redemption of the same token fails as unknown. -/
theorem ticket_single_use_witness :
    (use_ticket ((use_ticket demoStore "tok" 0).2) "tok" 5).1
        = Except.error Err.unknownTicket
    ∧ (use_ticket demoStore "tok" 0).1 = Except.ok ⟨"p", 0, "tok", 0⟩ :=
  ⟨(ticket_single_use demoStore "tok" 0 ⟨"p", 0, "tok", 0⟩ (by decide)).2.2.2 5,
   (ticket_single_use demoStore "tok" 0 ⟨"p", 0, "tok", 0⟩ (by decide)).2.1 (by decide)⟩

/-- C2: a ticket minted at time T and still present fails its redemption
at time `now` with the expired error exactly when `T + 120 <= now`, and
succeeds exactly when `now < T + 120`: the validity window is exactly
120 minutes from the issue time. -/
theorem ticket_expiry_window (store : TicketStore) (path : String) (prov : Nat)
    (tok : String) (T now : Int) :
    ((use_ticket (add_ticket store path prov tok T).2 tok now).1
        = Except.error (Err.ticketExpired (T + MAX_VALIDITY)) ↔ T + 120 ≤ now)
    ∧ ((use_ticket (add_ticket store path prov tok T).2 tok now).1
        = Except.ok ⟨path, prov, tok, T⟩ ↔ now < T + 120) := by
  have hlook : (add_ticket store path prov tok T).2 tok
      = some ⟨path, prov, tok, T⟩ := by
    simp [add_ticket]
  by_cases h : now < T + 120
  · have hv : Ticket.is_valid ⟨path, prov, tok, T⟩ now = true := by
      simp [Ticket.is_valid, MAX_VALIDITY]
      omega
    simp [use_ticket, hlook, hv]
    omega
  · have hv : Ticket.is_valid ⟨path, prov, tok, T⟩ now = false := by
      simp [Ticket.is_valid, MAX_VALIDITY]
      omega
    simp [use_ticket, hlook, hv, MAX_VALIDITY]
    omega

/-- C4 counterexample: with a malformed Authorization value and no
Target-Profile header, `start_call` reports the missing Target-Profile
header, not the invalid-scheme error — the Target-Profile header is
extracted before the scheme is validated. -/
theorem auth_missing_target_reported_first :
    start_call cexDb cexHeaders = Except.error (Err.missingHeader "Target-Profile")
    ∧ Err.missingHeader "Target-Profile" ≠ Err.invalidCredentialsType := by
  constructor
  · decide
  · decide

/-- C4 amended: when the Authorization value does not parse as
`Bearer <non-empty token>` and the Target-Profile header is present, the
call fails with the invalid-scheme error (and the token registry is
never consulted). -/
theorem invalid_scheme_when_target_present (db : TokenDB) (headers : Headers)
    (v w : String)
    (hauth : parse_header headers "Authorization" = Except.ok v)
    (htp : parse_header headers "Target-Profile" = Except.ok w)
    (hbad : (pyPartition v ' ').1 ≠ "Bearer" ∨ (pyPartition v ' ').2.2 = "") :
    start_call db headers = Except.error Err.invalidCredentialsType := by
  simp [start_call, hauth, htp, hbad]

/-- Witness for the amended C4: a "Basic" Authorization value together
with a present Target-Profile header yields the invalid-scheme error. -/
theorem invalid_scheme_when_target_present_witness :
    start_call cexDb okHeaders = Except.error Err.invalidCredentialsType :=
  invalid_scheme_when_target_present cexDb okHeaders "Basic xyz" "p1"
    (by decide) (by decide) (by decide)

/-- Appending the same string on the right is cancellative. -/
theorem string_append_cancel_right (a b c : String) (h : a ++ c = b ++ c) :
    a = b := by
  cases a with
  | mk la =>
    cases b with
    | mk lb =>
      cases c with
      | mk lc =>
        have hd : la ++ lc = lb ++ lc := congrArg String.data h
        exact congrArg String.mk (List.append_cancel_right hd)

/-- Two `sep.join`s over lists sharing the same tail agree only when the
heads agree: the root segment of a packed path is recoverable. -/
theorem sepJoin_root_inj (sep : String) (ps : List String) (r1 r2 : String)
    (h : sepJoin sep (r1 :: ps) = sepJoin sep (r2 :: ps)) : r1 = r2 := by
  cases ps with
  | nil => simpa [sepJoin] using h
  | cons x xs =>
    simp only [sepJoin] at h
    exact string_append_cancel_right _ _ _
      (string_append_cancel_right _ _ _ h)

/-- Writing a file at one path leaves lookups at any other path
unchanged. -/
theorem fsRead_fsWrite_ne (fs : FS) (p q : String) (t : ParquetFileT)
    (h : p ≠ q) : fsRead (fsWrite fs p t) q = fsRead fs q := by
  induction fs with
  | nil => simp [fsWrite, fsRead, h]
  | cons e rest ih =>
    obtain ⟨k, u⟩ := e
    by_cases hk : k = p
    · subst hk
      simp [fsWrite, fsRead, h]
    · by_cases hq : k = q
      · subst hq
        simp [fsWrite, fsRead, hk]
      · simp [fsWrite, fsRead, hk, hq, ih]

/-- C3: two file-backed profiles over the same backend separator but
distinct `root_path`s pack the same descriptor components to distinct
canonical paths, so a table written through `do_put` under the first
profile is not visible to `read_from` under the second even with an
identical table name: the read still reports `NotFound`. -/
theorem profile_isolation (p1 p2 : FileProvider) (parts : List String)
    (fs : FS) (stream : Schema × List Batch)
    (hsep : p1.sep = p2.sep)
    (hroot : p1.root_path ≠ p2.root_path)
    (hclean : fsRead fs (p2.pack_path parts) = none) :
    FileProvider.read_from p2 (do_put p1 fs parts stream)
        (unpack_descriptor p2 parts) none
      = Except.error (Err.notFound (p2.pack_path parts)) := by
  have hne : p1.pack_path parts ≠ p2.pack_path parts := by
    intro he
    apply hroot
    apply sepJoin_root_inj p2.sep parts
    rw [FileProvider.pack_path, FileProvider.pack_path, hsep] at he
    exact he
  simp only [FileProvider.read_from, do_put, FileProvider.write_to,
    unpack_descriptor]
  rw [fsRead_fsWrite_ne _ _ _ _ hne, hclean]

/-- Witness for C3: a write of table "t" under profile_1's root is not
found when reading table "t" under profile_2's root on an initially
empty filesystem. -/
theorem profile_isolation_witness :
    FileProvider.read_from wProv2 (do_put wProv1 [] ["t"] ([], [⟨0, 1⟩]))
        (unpack_descriptor wProv2 ["t"]) none
      = Except.error (Err.notFound (wProv2.pack_path ["t"])) :=
  profile_isolation wProv1 wProv2 ["t"] [] ([], [⟨0, 1⟩])
    (by decide) (by decide) (by decide)

/-- C5 counterexample: the file provider's `list` produces the table
path "data/t", yet `unpack_path` on that very path fails with
`NotImplementedError` instead of returning its logical components, so
`unpack_path` is not an inverse of `pack_path` on list-produced paths. -/
theorem file_unpack_breaks_roundtrip :
    (FileProvider.list cexFileProv cexFs "data").map TableInfo.path = ["data/t"]
    ∧ FileProvider.unpack_path cexFileProv "data/t"
        = Except.error Err.notImplemented := by
  constructor
  · decide
  · rfl

/-- C5 amended: the round-trip law holds only for the warehouse
provider — `unpack_path` is the identity and `pack_path` re-applied
restores every uppercase-stable path (which covers every path
`pack_path` itself produces) — while the file provider's `unpack_path`
is unimplemented and fails on every path. -/
theorem unpack_roundtrip_snowflake_only (p : String) (h : strUpper p = p) :
    snowflake_pack_path [snowflake_unpack_path p] = Except.ok p
    ∧ ∀ (fp : FileProvider) (path : String),
        FileProvider.unpack_path fp path = Except.error Err.notImplemented := by
  constructor
  · simp [snowflake_pack_path, snowflake_unpack_path, h]
  · intro fp path
    rfl

/-- Witness for the amended C5: the uppercase identifier "FRUITS"
round-trips through the warehouse provider's unpack/pack pair. -/
theorem unpack_roundtrip_snowflake_only_witness :
    snowflake_pack_path [snowflake_unpack_path "FRUITS"] = Except.ok "FRUITS" :=
  (unpack_roundtrip_snowflake_only "FRUITS" (by decide)).1

/-- C6 (code bug): an authenticated List call with empty criteria on a
file-backed profile does not yield an empty sequence — the gateway's
zero-argument `provider.list()` call raises `TypeError` because
`FileProvider.list` requires a positional `path` argument, regardless of
how many tables the scope holds. -/
theorem list_flights_type_error :
    list_flights ""
      = Except.error
          (Err.typeError "list() missing 1 required positional argument") := by
  decide

/-- C7 counterexample: the non-empty criteria bytes "null" decode to the
JSON value null, which Python's `json.loads` returns as `None`, so the
criteria assert passes and the call does not fail with
`UnsupportedCriteria`. -/
theorem criteria_null_not_unsupported :
    ("null" : String) ≠ ""
    ∧ list_flights "null" ≠ Except.error Err.unsupportedCriteria := by
  constructor
  · decide
  · decide

/-- C7 amended: a List call fails with `UnsupportedCriteria` exactly
when the criteria bytes are non-empty and decode to a JSON value other
than null; empty criteria (and the JSON document "null") pass the
check, and malformed criteria fail with a JSON decode error instead. -/
theorem unsupported_criteria_iff (criteria : String) :
    list_flights criteria = Except.error Err.unsupportedCriteria
      ↔ criteria ≠ ""
        ∧ ∃ v, json_loads criteria = Except.ok v ∧ v.isNull = false := by
  by_cases hc : criteria = ""
  · subst hc
    simp [list_flights, parse_criteria, file_list_zero_arg]
  · simp only [list_flights, parse_criteria, if_neg hc]
    cases hj : json_loads criteria with
    | error e => simp [hj, hc]
    | ok v =>
      cases v with
      | null => simp [hj, hc, file_list_zero_arg, Json.isNull]
      | bool b => simp [hj, hc, Json.isNull]
      | num n => simp [hj, hc, Json.isNull]
      | str s => simp [hj, hc, Json.isNull]
      | arr elems => simp [hj, hc, Json.isNull]
      | obj fields => simp [hj, hc, Json.isNull]

/-- C8: whenever the warehouse query yields at least one result table,
`read_from` streams exactly the record batches of all result tables in
order — the peeked first table is re-chained in front of the remainder
— under the first table's schema. -/
theorem snowflake_read_preserves_batches (path : String)
    (results : List SfTable) (h : results ≠ []) :
    snowflake_read_from path none results
      = Except.ok ((results.head h).schema,
          results.flatMap SfTable.to_batches) := by
  cases results with
  | nil => exact absurd rfl h
  | cons t rest => simp [snowflake_read_from, pyNext, chainCons]

/-- Witness for C8: a two-table result streams out its three batches in
order under the first table's schema. -/
theorem snowflake_read_preserves_batches_witness :
    snowflake_read_from "T" none
        [⟨[("a", "int")], [⟨0, 2⟩]⟩, ⟨[("a", "int")], [⟨1, 2⟩, ⟨2, 1⟩]⟩]
      = Except.ok ([("a", "int")], [⟨0, 2⟩, ⟨1, 2⟩, ⟨2, 1⟩]) :=
  snowflake_read_preserves_batches "T"
    [⟨[("a", "int")], [⟨0, 2⟩]⟩, ⟨[("a", "int")], [⟨1, 2⟩, ⟨2, 1⟩]⟩]
    (by decide)

/-- Bulk-load effects are never statement executions. -/
theorem bulkLoads_have_no_exec (l : List (Nat × Batch)) (path : String) :
    ((l.map fun e => SfEffect.bulkLoad e.2 path (pyNot e.1) (pyNot e.1)).filter
        SfEffect.isExec) = [] := by
  induction l with
  | nil => rfl
  | cons e rest ih => simp [SfEffect.isExec, ih]

/-- C9: for every value the DDL-generation collaborator may return, the
warehouse `write_to` trace opens with the single execution of that
generated `CREATE TABLE` statement — the only statement executed —
followed by one bulk load per batch, whose create/overwrite flags are
set exactly for the batch at iteration index 0 and cleared for every
later index. -/
theorem snowflake_write_protocol (generate_ddl : String → String → Schema → String)
    (path : String) (schema : Schema) (stream : List Batch) :
    ((snowflake_write_to generate_ddl path schema stream).get? 0
        = some (SfEffect.execStmt (generate_ddl path SQL_ALCHEMY_DIALECT schema)))
    ∧ ((snowflake_write_to generate_ddl path schema stream).filter
          SfEffect.isExec).length = 1
    ∧ (∀ h0 : 0 < stream.length,
        (snowflake_write_to generate_ddl path schema stream).get? 1
          = some (SfEffect.bulkLoad (stream.get ⟨0, h0⟩) path true true))
    ∧ (∀ i, 0 < i → ∀ h : i < stream.length,
        (snowflake_write_to generate_ddl path schema stream).get? (i + 1)
          = some (SfEffect.bulkLoad (stream.get ⟨i, h⟩) path false false)) := by
  refine ⟨rfl, ?_, ?_, ?_⟩
  · simp [snowflake_write_to, SfEffect.isExec, bulkLoads_have_no_exec]
  · intro h0
    have hs : stream.get? 0 = some (stream.get ⟨0, h0⟩) := List.get?_eq_get h0
    simp [snowflake_write_to, pyEnumerate, List.get?_enum, hs, pyNot]
  · intro i hi h
    have hs : stream.get? i = some (stream.get ⟨i, h⟩) := List.get?_eq_get h
    have hnz : pyNot i = false := by
      cases i with
      | zero => exact absurd hi (by simp)
      | succ n => rfl
    simp [snowflake_write_to, pyEnumerate, List.get?_enum, hs, hnz]

/-- Witness for C9: writing two batches under a sample DDL collaborator
bulk-loads the second batch in append mode (create and overwrite flags
cleared). -/
theorem snowflake_write_protocol_witness :
    (snowflake_write_to wDdl "T" [("a", "int")] [⟨0, 1⟩, ⟨1, 2⟩]).get? 2
      = some (SfEffect.bulkLoad ⟨1, 2⟩ "T" false false) :=
  (snowflake_write_protocol wDdl "T" [("a", "int")] [⟨0, 1⟩, ⟨1, 2⟩]).2.2.2 1
    (by decide) (by decide)

/-- C10: a full-table query returning zero batches makes the warehouse
`read_from` fail its non-emptiness assertion rather than return an
empty stream, so an empty warehouse table can never be streamed out. -/
theorem snowflake_read_empty_asserts (path : String) :
    snowflake_read_from path none []
      = Except.error (Err.assertionFailed "there should be at least one batch") :=
  rfl

end FalTeller
